import Mathlib

/-!
Verification of the gradient-rule library of a tensor IR
(python/tvm/relay/op/_tensor_grad.py) and of the quantized concatenate
builder (python/tvm/relay/qnn/op/qnn.py), as a shallow embedding in Lean.

Elementwise gradient rules are embedded at per-element (scalar) semantics
over the rationals: the external relay builder primitives ones_like,
zeros_like, where, less, collapse_sum_like and broadcast_to_like act
pointwise, so a scalar carrier captures their per-element meaning
(collapse_sum_like / broadcast_to_like are the identity at matching
shapes).  Transcendental builder primitives (exp, cos, sin, power), which
live outside this repository's files, are abstracted as function
parameters.  The conv2d rule, whose content is shape/attribute arithmetic,
is embedded as a function from the attribute record and the inferred
shapes to the symbolic calls it constructs; failure of a python assert is
an error value.
-/

/-- Scalar (per-element) semantics of the relay builder ones_like. -/
def ones_like (_x : ℚ) : ℚ := 1

/-- Scalar (per-element) semantics of the relay builder zeros_like. -/
def zeros_like (_x : ℚ) : ℚ := 0

/-- Scalar semantics of the relay comparison builder less. -/
def less (a b : ℚ) : Bool := decide (a < b)

/-- Scalar semantics of the relay selection builder where(cond, t, f). -/
def where_op (c : Bool) (t f : ℚ) : ℚ := if c then t else f

/-- Scalar semantics of collapse_sum_like: at matching shapes (the
per-element view) the broadcast reduction is the identity on the gradient. -/
def collapse_sum_like (grad _like : ℚ) : ℚ := grad

/-- Scalar semantics of broadcast_to_like: at matching shapes it is the
identity on the expression being broadcast. -/
def broadcast_to_like (e _like : ℚ) : ℚ := e

/-- log_grad: returns [grad * ones_like(x) / x]. -/
def log_grad (x grad : ℚ) : List ℚ :=
  [grad * ones_like x / x]

/-- cos_grad: ones = ones_like(x); returns [grad * (-ones * sin(x))];
the external builder sin is the parameter sinP. -/
def cos_grad (sinP : ℚ → ℚ) (x grad : ℚ) : List ℚ :=
  let ones := ones_like x
  [grad * (-ones * sinP x)]

/-- sin_grad: returns [grad * cos(x)]; the external builder cos is cosP. -/
def sin_grad (cosP : ℚ → ℚ) (x grad : ℚ) : List ℚ :=
  [grad * cosP x]

/-- exp_grad: returns [grad * exp(x)]; the external builder exp is expP. -/
def exp_grad (expP : ℚ → ℚ) (x grad : ℚ) : List ℚ :=
  [grad * expP x]

/-- sqrt_grad: a = const(0.5); returns [grad * a * power(x, negative(a))];
the external builder power is the parameter powerP. -/
def sqrt_grad (powerP : ℚ → ℚ → ℚ) (x grad : ℚ) : List ℚ :=
  let a : ℚ := 1/2
  [grad * a * powerP x (-a)]

/-- Modelled from the spec: the element type relay const (implemented
outside this repository's files) attaches to the 0.5 literal built by
sqrt_grad; the spec states it is "a literal constant 0.5 of matching
element type", i.e. the element type of x. -/
def sqrt_const_dtype (x_dtype : String) : String := x_dtype

/-- sigmoid_grad: returns [grad * orig * (ones_like(orig) - orig)]. -/
def sigmoid_grad (orig grad : ℚ) : List ℚ :=
  [grad * orig * (ones_like orig - orig)]

/-- tanh_grad, transcribed with the source's parenthesization:
returns [grad * ones_like(orig) - orig * orig]. -/
def tanh_grad (orig grad : ℚ) : List ℚ :=
  [grad * ones_like orig - orig * orig]

/-- relu_grad: returns [where(less(x, zeros), zeros, ones * grad)]. -/
def relu_grad (x grad : ℚ) : List ℚ :=
  let zeros := zeros_like x
  let ones := ones_like x
  [where_op (less x zeros) zeros (ones * grad)]

/-- abs_grad: returns [where(less(x, zeros), -ones * grad, ones * grad)]. -/
def abs_grad (x grad : ℚ) : List ℚ :=
  let zeros := zeros_like x
  let ones := ones_like x
  [where_op (less x zeros) (-ones * grad) (ones * grad)]

/-- add_grad: returns [collapse_sum_like(grad, x), collapse_sum_like(grad, y)]. -/
def add_grad (x y grad : ℚ) : List ℚ :=
  [collapse_sum_like grad x, collapse_sum_like grad y]

/-- subtract_grad: returns [collapse_sum_like(grad, x),
collapse_sum_like(negative(grad), y)]. -/
def subtract_grad (x y grad : ℚ) : List ℚ :=
  [collapse_sum_like grad x, collapse_sum_like (-grad) y]

/-- multiply_grad: returns [collapse_sum_like(grad * y, x),
collapse_sum_like(grad * x, y)]. -/
def multiply_grad (x y grad : ℚ) : List ℚ :=
  [collapse_sum_like (grad * y) x, collapse_sum_like (grad * x) y]

/-- divide_grad: orig = x / y; returns [collapse_sum_like(grad / y, x),
collapse_sum_like(-(grad * orig / y), y)]. -/
def divide_grad (x y orig grad : ℚ) : List ℚ :=
  [collapse_sum_like (grad / y) x, collapse_sum_like (-(grad * orig / y)) y]

/-- zeros_grad: returns []. -/
def zeros_grad (_orig _grad : ℚ) : List ℚ := []

/-- ones_grad: returns []. -/
def ones_grad (_orig _grad : ℚ) : List ℚ := []

/-- zeros_like_grad: returns [orig]. -/
def zeros_like_grad (orig _grad : ℚ) : List ℚ := [orig]

/-- ones_like_grad: returns [zeros_like(x)]. -/
def ones_like_grad (x _grad : ℚ) : List ℚ := [zeros_like x]

/-- collapse_sum_like_grad: x, y = orig.args; returns
[broadcast_to_like(grad, x), zeros_like(y)]. -/
def collapse_sum_like_grad (x y grad : ℚ) : List ℚ :=
  [broadcast_to_like grad x, zeros_like y]

/-- Modelled from the spec: Attrs.get_int, the attribute reader clip_grad
uses for a_min and a_max, is implemented outside this repository's files;
the spec's clip row reads the mask thresholds as the call's declared bound
values themselves ("grad where a_min ≤ x ≤ a_max, else 0 — attributes read
from the call"), so the reader returns the declared attribute value. -/
def get_int (v : ℚ) : ℚ := v

/-- Tensor-level (rank-1) semantics used by clip_grad, which builds
elementwise masks over a whole tensor: broadcast_to_like(const c, x). -/
def broadcast_const_like (c : ℚ) (x : List ℚ) : List ℚ := x.map fun _ => c

/-- Elementwise zeros_like on a rank-1 tensor. -/
def zeros_like_t (x : List ℚ) : List ℚ := x.map fun _ => 0

/-- Elementwise ones_like on a rank-1 tensor. -/
def ones_like_t (x : List ℚ) : List ℚ := x.map fun _ => 1

/-- Elementwise less on rank-1 tensors. -/
def less_t (a b : List ℚ) : List Bool := List.zipWith (fun x y => decide (x < y)) a b

/-- Elementwise where on rank-1 tensors. -/
def where_t (c : List Bool) (t f : List ℚ) : List ℚ :=
  List.zipWith (fun ci (tf : ℚ × ℚ) => if ci then tf.1 else tf.2) c (t.zip f)

/-- Elementwise multiplication on rank-1 tensors. -/
def mul_t (a b : List ℚ) : List ℚ := List.zipWith (· * ·) a b

/-- clip_grad: a_min = attrs.get_int("a_min"); a_max = attrs.get_int("a_max");
returns [where(less(x, a_mins), zeros, where(less(a_maxs, x), zeros, ones * grad))],
with a_mins/a_maxs the bounds broadcast to x's shape. -/
def clip_grad (a_min_attr a_max_attr : ℚ) (x grad : List ℚ) : List (List ℚ) :=
  let a_min := get_int a_min_attr
  let a_max := get_int a_max_attr
  let a_mins := broadcast_const_like a_min x
  let a_maxs := broadcast_const_like a_max x
  let zeros := zeros_like_t x
  let ones := ones_like_t x
  [where_t (less_t x a_mins) zeros (where_t (less_t a_maxs x) zeros (mul_t ones grad))]

/-- Integer truncation of a rational, toward zero (python int()). -/
def int_trunc (q : ℚ) : ℚ := ((q.num / (q.den : ℤ) : ℤ) : ℚ)

/-- The claim's description of the clip gradient rule: identical to
clip_grad except that the bounds read from the call are integer-truncated
before the masks are built. -/
def clip_grad_truncating (a_min_attr a_max_attr : ℚ) (x grad : List ℚ) : List (List ℚ) :=
  let a_min := int_trunc a_min_attr
  let a_max := int_trunc a_max_attr
  let a_mins := broadcast_const_like a_min x
  let a_maxs := broadcast_const_like a_max x
  let zeros := zeros_like_t x
  let ones := ones_like_t x
  [where_t (less_t x a_mins) zeros (where_t (less_t a_maxs x) zeros (mul_t ones grad))]

/-- The conv2d attributes the gradient rule reads: strides, padding,
dilation, groups as constant integer tuples (get_const_tuple), and the
three layout strings. -/
structure Conv2dAttrs where
  strides : ℤ × ℤ
  padding : List ℤ
  dilation : ℤ × ℤ
  groups : ℤ
  data_layout : String
  kernel_layout : String
  out_layout : String
deriving DecidableEq

/-- The conv2d_transpose call conv2d_grad builds for the data gradient:
conv2d_transpose(grad, weight, strides, padding, dilation, groups,
output_padding), recorded by its attribute arguments. -/
structure Conv2dTransposeCall where
  strides : ℤ × ℤ
  padding : List ℤ
  dilation : ℤ × ℤ
  groups : ℤ
  output_padding : ℤ × ℤ
deriving DecidableEq

/-- The grouped conv2d call conv2d_grad builds for the weight gradient,
together with the tile and reshape arguments that prepare its operands:
tile(grad, tile_reps); reshape(grad, grad_newshape); reshape(data,
data_newshape); conv2d(data, grad, strides, padding, dilation, groups). -/
structure Conv2dCallAttrs where
  tile_reps : List ℤ
  grad_newshape : List ℤ
  data_newshape : List ℤ
  strides : ℤ × ℤ
  padding : List ℤ
  dilation : ℤ × ℤ
  groups : ℤ
deriving DecidableEq

/-- A strided_slice call, recorded by its begin and end arguments
(an end entry of none is python None: the axis is kept whole). -/
structure StridedSliceCall where
  slice_begin : List ℤ
  slice_end : List (Option ℤ)
deriving DecidableEq

/-- The weight-gradient expression conv2d_grad returns: the grouped
convolution, then reshape to 5 axes, sum over an axis, transpose, and an
optional final crop by strided_slice. -/
structure BackwardWeight where
  conv : Conv2dCallAttrs
  reshape_newshape : List ℤ
  sum_axis : ℤ
  transpose_axes : List ℤ
  slice : Option StridedSliceCall
deriving DecidableEq

/-- One entry of the gradient list conv2d_grad returns. -/
inductive Conv2dGradItem
  | dataGrad (c : Conv2dTransposeCall)
  | weightGrad (w : BackwardWeight)
deriving DecidableEq

/-- The failures of conv2d_grad: the three layout asserts and the two
padded-weight-gradient shape asserts. -/
inductive Conv2dGradError
  | unsupportedDataLayout
  | unsupportedKernelLayout
  | unsupportedOutLayout
  | paddedWeightGradHTooSmall
  | paddedWeightGradWTooSmall
deriving DecidableEq

/-- padded_weight_grad_h of conv2d_grad:
(in_h - (grad_h - 1) * stride_h - 1 + fpad_top + fpad_bottom) // dilation_h + 1,
with python floor division. -/
def padded_weight_grad_h (in_h grad_h stride_h fpad_top fpad_bottom dilation_h : ℤ) : ℤ :=
  (in_h - (grad_h - 1) * stride_h - 1 + fpad_top + fpad_bottom).fdiv dilation_h + 1

/-- padded_weight_grad_w of conv2d_grad:
(in_w - (grad_w - 1) * stride_w - 1 + fpad_left + fpad_right) // dilation_w + 1,
with python floor division. -/
def padded_weight_grad_w (in_w grad_w stride_w fpad_left fpad_right dilation_w : ℤ) : ℤ :=
  (in_w - (grad_w - 1) * stride_w - 1 + fpad_left + fpad_right).fdiv dilation_w + 1

/-- conv2d_grad, embedded over the data it actually computes with:
the attribute record, the inferred shapes (data_shape = (batch, in_channel,
in_h, in_w) and weight_shape = (out_channel, _, filter_h, filter_w) from
checked_type, grad_hw the spatial tail (grad_h, grad_w) of the call's
output shape), and fpads = (fpad_top, fpad_left, fpad_bottom, fpad_right),
the result of the external topi helper get_pad_tuple applied to the
declared padding and the kernel size.  python assert failures are error
values; otherwise the result is the two-entry gradient list
[backward_data, backward_weight]. -/
def conv2d_grad (attrs : Conv2dAttrs) (data_shape : ℤ × ℤ × ℤ × ℤ)
    (weight_shape : ℤ × ℤ × ℤ × ℤ) (grad_hw : ℤ × ℤ)
    (fpads : ℤ × ℤ × ℤ × ℤ) : Except Conv2dGradError (List Conv2dGradItem) :=
  let (batch, in_channel, in_h, in_w) := data_shape
  let (out_channel, _, filter_h, filter_w) := weight_shape
  let (grad_h, grad_w) := grad_hw
  let (fpad_top, fpad_left, fpad_bottom, fpad_right) := fpads
  let (stride_h, stride_w) := attrs.strides
  let (dilation_h, dilation_w) := attrs.dilation
  let out_h := (grad_h - 1) * stride_h - fpad_top - fpad_bottom + filter_h
  let out_w := (grad_w - 1) * stride_w - fpad_left - fpad_right + filter_w
  let output_padding := (in_h - out_h, in_w - out_w)
  if attrs.data_layout ≠ "NCHW" then .error .unsupportedDataLayout
  else if attrs.kernel_layout ≠ "OIHW" then .error .unsupportedKernelLayout
  else if ¬ (attrs.out_layout = "" ∨ attrs.out_layout = "NCHW") then
    .error .unsupportedOutLayout
  else
    let backward_data : Conv2dTransposeCall :=
      { strides := attrs.strides, padding := attrs.padding,
        dilation := attrs.dilation, groups := attrs.groups,
        output_padding := output_padding }
    let bw_conv : Conv2dCallAttrs :=
      { tile_reps := [1, in_channel.fdiv attrs.groups, 1, 1],
        grad_newshape := [-1, 1, 0, 0],
        data_newshape := [1, -1, 0, 0],
        strides := attrs.dilation, padding := attrs.padding,
        dilation := attrs.strides, groups := in_channel * batch }
    let pwg_h := padded_weight_grad_h in_h grad_h stride_h fpad_top fpad_bottom dilation_h
    let pwg_w := padded_weight_grad_w in_w grad_w stride_w fpad_left fpad_right dilation_w
    let backward_weight0 : BackwardWeight :=
      { conv := bw_conv,
        reshape_newshape := [batch, in_channel.fdiv attrs.groups, out_channel, pwg_h, pwg_w],
        sum_axis := 0, transpose_axes := [1, 0, 2, 3], slice := none }
    if pwg_h < filter_h then .error .paddedWeightGradHTooSmall
    else if pwg_w < filter_w then .error .paddedWeightGradWTooSmall
    else
      let backward_weight :=
        if pwg_h > filter_h ∨ pwg_w > filter_w then
          { backward_weight0 with
            slice := some { slice_begin := [0, 0, 0, 0],
                            slice_end := [none, none, some filter_h, some filter_w] } }
        else backward_weight0
      .ok [.dataGrad backward_data, .weightGrad backward_weight]

/-- The pooling attributes the two pooling gradient rules forward. -/
structure PoolAttrs where
  pool_size : List ℤ
  strides : List ℤ
  padding : List ℤ
  layout : String
  ceil_mode : Bool
  count_include_pad : Bool
deriving DecidableEq

/-- The nn.max_pool2d_grad call max_pool2d_grad builds:
max_pool2d_grad(grad, x, pool_size, strides, padding, layout, ceil_mode). -/
structure MaxPool2dGradCall where
  out_grad : ℚ
  data : ℚ
  pool_size : List ℤ
  strides : List ℤ
  padding : List ℤ
  layout : String
  ceil_mode : Bool
deriving DecidableEq

/-- The nn.avg_pool2d_grad call avg_pool2d_grad builds: as max pooling,
with count_include_pad forwarded as well. -/
structure AvgPool2dGradCall where
  out_grad : ℚ
  data : ℚ
  pool_size : List ℤ
  strides : List ℤ
  padding : List ℤ
  layout : String
  ceil_mode : Bool
  count_include_pad : Bool
deriving DecidableEq

/-- max_pool2d_grad: returns [pool_grad] with the call's attributes
forwarded unchanged. -/
def max_pool2d_grad (attrs : PoolAttrs) (x grad : ℚ) : List MaxPool2dGradCall :=
  let pool_grad : MaxPool2dGradCall :=
    { out_grad := grad, data := x, pool_size := attrs.pool_size,
      strides := attrs.strides, padding := attrs.padding,
      layout := attrs.layout, ceil_mode := attrs.ceil_mode }
  [pool_grad]

/-- avg_pool2d_grad: returns [pool_grad] with the call's attributes,
count_include_pad included, forwarded unchanged. -/
def avg_pool2d_grad (attrs : PoolAttrs) (x grad : ℚ) : List AvgPool2dGradCall :=
  let pool_grad : AvgPool2dGradCall :=
    { out_grad := grad, data := x, pool_size := attrs.pool_size,
      strides := attrs.strides, padding := attrs.padding,
      layout := attrs.layout, ceil_mode := attrs.ceil_mode,
      count_include_pad := attrs.count_include_pad }
  [pool_grad]

/-- Structural tensor expressions: what the concatenate placeholder rule
builds out of its single tuple argument, and what the quantized
concatenate builder groups into a Tuple. -/
inductive TExpr
  | varE (n : String)
  | tupleE (es : List TExpr)
  | tupleGetItemE (t : TExpr) (i : ℕ)
  | zerosLikeE (e : TExpr)

/-- concatenate_grad (the placeholder rule): t = orig.args[0];
x = TupleGetItem(t, 0); y = TupleGetItem(t, 1);
returns [Tuple([zeros_like(x), zeros_like(y)])]. -/
def concatenate_grad (t _grad : TExpr) : List TExpr :=
  let x := TExpr.tupleGetItemE t 0
  let y := TExpr.tupleGetItemE t 1
  [TExpr.tupleE [TExpr.zerosLikeE x, TExpr.zerosLikeE y]]

/-- The operator kinds with a registered gradient rule. -/
inductive GradOp
  | log | cos | sin | exp | sqrt | sigmoid | tanh | relu
  | add | subtract | multiply | divide
  | zeros | ones | zeros_like | ones_like | collapse_sum_like
  | abs | clip | max_pool2d | avg_pool2d | concatenate | conv2d
deriving DecidableEq

/-- The argument count of the call each registered rule differentiates:
1 for the unary rules and the single-argument pooling and concatenate
calls, 2 for the binary rules and conv2d, 0 for zeros and ones. -/
def registryArgCount : GradOp → ℕ
  | .add | .subtract | .multiply | .divide | .collapse_sum_like | .conv2d => 2
  | .zeros | .ones => 0
  | _ => 1

/-- A python value, as far as the quantized concatenate builder inspects
its axis argument (isinstance(axis, int)). -/
inductive PyVal
  | intV (n : ℤ)
  | floatV (q : ℚ)
  | strV (s : String)
  | noneV
deriving DecidableEq

/-- isinstance(axis, int) for the modelled python values. -/
def PyVal.isInt : PyVal → Bool
  | .intV _ => true
  | _ => false

/-- A FloatImm literal, as built for each input scale. -/
structure FloatImm where
  dtype : String
  value : ℚ
deriving DecidableEq

/-- An IntImm literal, as built for each input zero point. -/
structure IntImm where
  dtype : String
  value : ℤ
deriving DecidableEq

/-- The _make.concatenate call the quantized concatenate builder
constructs: Tuple(data), the converted scale and zero-point literals, the
output quantization parameters and the axis. -/
structure QnnConcatenateCall where
  data : List TExpr
  input_scales : List FloatImm
  input_zero_points : List IntImm
  output_scale : ℚ
  output_zero_point : ℤ
  axis : PyVal

/-- The quantized concatenate builder: errors on an empty data sequence,
then on a non-integer axis; otherwise builds the concatenate call with
each scale wrapped as FloatImm("float64", x) and each zero point as
IntImm("int32", x). -/
def qnn_concatenate (data : List TExpr) (input_scales : List ℚ)
    (input_zero_points : List ℤ) (output_scale : ℚ) (output_zero_point : ℤ)
    (axis : PyVal) : Except String QnnConcatenateCall :=
  if data.isEmpty then .error "relay.concatenate requires data to be non-empty."
  else if !axis.isInt then .error "For now, we only support integer axis"
  else .ok { data := data,
             input_scales := input_scales.map fun x => { dtype := "float64", value := x },
             input_zero_points := input_zero_points.map fun x => { dtype := "int32", value := x },
             output_scale := output_scale, output_zero_point := output_zero_point,
             axis := axis }

/-- Helper: on success conv2d_grad returns exactly the two-entry list
[backward_data, backward_weight]. -/
theorem conv2d_grad_ok_shape (attrs : Conv2dAttrs) (dsh wsh : ℤ × ℤ × ℤ × ℤ)
    (ghw : ℤ × ℤ) (fpads : ℤ × ℤ × ℤ × ℤ) (l : List Conv2dGradItem)
    (h : conv2d_grad attrs dsh wsh ghw fpads = .ok l) :
    ∃ bd bw, l = [.dataGrad bd, .weightGrad bw] := by
  obtain ⟨⟨sh, sw⟩, pad, ⟨dh, dw⟩, g, dl, kl, ol⟩ := attrs
  obtain ⟨batch, ic, ih, iw⟩ := dsh
  obtain ⟨oc, ci, fh, fw⟩ := wsh
  obtain ⟨gh, gw⟩ := ghw
  obtain ⟨pt, pl, pb, pr⟩ := fpads
  simp only [conv2d_grad] at h
  split at h
  · exact absurd h (by simp)
  split at h
  · exact absurd h (by simp)
  split at h
  · exact absurd h (by simp)
  split at h
  · exact absurd h (by simp)
  split at h
  · exact absurd h (by simp)
  injection h with hl
  subst hl
  exact ⟨_, _, rfl⟩

/-- Helper: with the supported layouts, conv2d_grad reduces to the shape
guard and the gradient list. -/
theorem conv2d_grad_supported
    (stride_h stride_w dilation_h dilation_w groups : ℤ) (pad : List ℤ)
    (dl kl ol : String)
    (batch in_channel in_h in_w out_channel ci filter_h filter_w grad_h grad_w : ℤ)
    (pt pl pb pr : ℤ)
    (hdl : dl = "NCHW") (hkl : kl = "OIHW") (hol : ol = "" ∨ ol = "NCHW") :
    conv2d_grad
      { strides := (stride_h, stride_w), padding := pad,
        dilation := (dilation_h, dilation_w), groups := groups,
        data_layout := dl, kernel_layout := kl, out_layout := ol }
      (batch, in_channel, in_h, in_w) (out_channel, ci, filter_h, filter_w)
      (grad_h, grad_w) (pt, pl, pb, pr) =
      (if padded_weight_grad_h in_h grad_h stride_h pt pb dilation_h < filter_h then
        .error .paddedWeightGradHTooSmall
      else if padded_weight_grad_w in_w grad_w stride_w pl pr dilation_w < filter_w then
        .error .paddedWeightGradWTooSmall
      else
        .ok [.dataGrad
              { strides := (stride_h, stride_w), padding := pad,
                dilation := (dilation_h, dilation_w), groups := groups,
                output_padding :=
                  (in_h - ((grad_h - 1) * stride_h - pt - pb + filter_h),
                   in_w - ((grad_w - 1) * stride_w - pl - pr + filter_w)) },
             .weightGrad
              { conv := { tile_reps := [1, in_channel.fdiv groups, 1, 1],
                          grad_newshape := [-1, 1, 0, 0],
                          data_newshape := [1, -1, 0, 0],
                          strides := (dilation_h, dilation_w), padding := pad,
                          dilation := (stride_h, stride_w),
                          groups := in_channel * batch },
                reshape_newshape := [batch, in_channel.fdiv groups, out_channel,
                  padded_weight_grad_h in_h grad_h stride_h pt pb dilation_h,
                  padded_weight_grad_w in_w grad_w stride_w pl pr dilation_w],
                sum_axis := 0, transpose_axes := [1, 0, 2, 3],
                slice :=
                  if padded_weight_grad_h in_h grad_h stride_h pt pb dilation_h > filter_h ∨
                     padded_weight_grad_w in_w grad_w stride_w pl pr dilation_w > filter_w then
                    some { slice_begin := [0, 0, 0, 0],
                           slice_end := [none, none, some filter_h, some filter_w] }
                  else none }]) := by
  subst hdl hkl
  simp only [conv2d_grad]
  rw [if_neg (by simp), if_neg (by simp),
    if_neg (by rcases hol with h | h <;> simp [h])]
  split
  · rfl
  split
  · rfl
  split <;> rfl

/-- C2: on every successful conv2d_grad call the data gradient is a
conv2d_transpose of grad with weight carrying the forward strides,
padding, dilation and groups, and output_padding =
(in_h - ((grad_h-1)*stride_h - fpad_top - fpad_bottom + filter_h),
 in_w - ((grad_w-1)*stride_w - fpad_left - fpad_right + filter_w)). -/
theorem conv2d_grad_output_padding
    (stride_h stride_w dilation_h dilation_w groups : ℤ) (pad : List ℤ)
    (dl kl ol : String)
    (batch in_channel in_h in_w out_channel ci filter_h filter_w grad_h grad_w : ℤ)
    (pt pl pb pr : ℤ) (l : List Conv2dGradItem)
    (h : conv2d_grad
      { strides := (stride_h, stride_w), padding := pad,
        dilation := (dilation_h, dilation_w), groups := groups,
        data_layout := dl, kernel_layout := kl, out_layout := ol }
      (batch, in_channel, in_h, in_w) (out_channel, ci, filter_h, filter_w)
      (grad_h, grad_w) (pt, pl, pb, pr) = .ok l) :
    ∃ bd bw, l = [.dataGrad bd, .weightGrad bw]
      ∧ bd.strides = (stride_h, stride_w) ∧ bd.padding = pad
      ∧ bd.dilation = (dilation_h, dilation_w) ∧ bd.groups = groups
      ∧ bd.output_padding =
          (in_h - ((grad_h - 1) * stride_h - pt - pb + filter_h),
           in_w - ((grad_w - 1) * stride_w - pl - pr + filter_w)) := by
  simp only [conv2d_grad] at h
  split at h
  · exact absurd h (by simp)
  split at h
  · exact absurd h (by simp)
  split at h
  · exact absurd h (by simp)
  split at h
  · exact absurd h (by simp)
  split at h
  · exact absurd h (by simp)
  injection h with hl
  subst hl
  exact ⟨_, _, rfl, rfl, rfl, rfl, rfl, rfl⟩

/-- C3: on every successful conv2d_grad call the weight gradient's grouped
convolution tiles grad by in_channel // groups along the channel axis,
reshapes grad to [-1, 1, 0, 0] and data to [1, -1, 0, 0], and runs conv2d
with the forward dilation as its strides, the forward strides as its
dilation, and groups = in_channel * batch. -/
theorem conv2d_grad_weight_conv_swap
    (stride_h stride_w dilation_h dilation_w groups : ℤ) (pad : List ℤ)
    (dl kl ol : String)
    (batch in_channel in_h in_w out_channel ci filter_h filter_w grad_h grad_w : ℤ)
    (pt pl pb pr : ℤ) (l : List Conv2dGradItem)
    (h : conv2d_grad
      { strides := (stride_h, stride_w), padding := pad,
        dilation := (dilation_h, dilation_w), groups := groups,
        data_layout := dl, kernel_layout := kl, out_layout := ol }
      (batch, in_channel, in_h, in_w) (out_channel, ci, filter_h, filter_w)
      (grad_h, grad_w) (pt, pl, pb, pr) = .ok l) :
    ∃ bd bw, l = [.dataGrad bd, .weightGrad bw]
      ∧ bw.conv.tile_reps = [1, in_channel.fdiv groups, 1, 1]
      ∧ bw.conv.grad_newshape = [-1, 1, 0, 0]
      ∧ bw.conv.data_newshape = [1, -1, 0, 0]
      ∧ bw.conv.strides = (dilation_h, dilation_w)
      ∧ bw.conv.padding = pad
      ∧ bw.conv.dilation = (stride_h, stride_w)
      ∧ bw.conv.groups = in_channel * batch := by
  simp only [conv2d_grad] at h
  split at h
  · exact absurd h (by simp)
  split at h
  · exact absurd h (by simp)
  split at h
  · exact absurd h (by simp)
  split at h
  · exact absurd h (by simp)
  split at h
  · exact absurd h (by simp)
  split at h
  · injection h with hl
    subst hl
    exact ⟨_, _, rfl, rfl, rfl, rfl, rfl, rfl, rfl, rfl⟩
  · injection h with hl
    subst hl
    exact ⟨_, _, rfl, rfl, rfl, rfl, rfl, rfl, rfl, rfl⟩

/-- C4: with supported layouts, conv2d_grad fails (assertion) exactly when
a derived padded weight-gradient spatial size is smaller than the true
kernel size; on success both padded sizes are at least the kernel sizes
and the weight gradient is cropped from the origin down to
(filter_h, filter_w) exactly when a padded size strictly exceeds it. -/
theorem conv2d_grad_padded_guard_and_crop
    (stride_h stride_w dilation_h dilation_w groups : ℤ) (pad : List ℤ)
    (dl kl ol : String)
    (batch in_channel in_h in_w out_channel ci filter_h filter_w grad_h grad_w : ℤ)
    (pt pl pb pr : ℤ)
    (hdl : dl = "NCHW") (hkl : kl = "OIHW") (hol : ol = "" ∨ ol = "NCHW") :
    ((conv2d_grad
        { strides := (stride_h, stride_w), padding := pad,
          dilation := (dilation_h, dilation_w), groups := groups,
          data_layout := dl, kernel_layout := kl, out_layout := ol }
        (batch, in_channel, in_h, in_w) (out_channel, ci, filter_h, filter_w)
        (grad_h, grad_w) (pt, pl, pb, pr) = .error .paddedWeightGradHTooSmall ∨
      conv2d_grad
        { strides := (stride_h, stride_w), padding := pad,
          dilation := (dilation_h, dilation_w), groups := groups,
          data_layout := dl, kernel_layout := kl, out_layout := ol }
        (batch, in_channel, in_h, in_w) (out_channel, ci, filter_h, filter_w)
        (grad_h, grad_w) (pt, pl, pb, pr) = .error .paddedWeightGradWTooSmall) ↔
      (padded_weight_grad_h in_h grad_h stride_h pt pb dilation_h < filter_h ∨
       padded_weight_grad_w in_w grad_w stride_w pl pr dilation_w < filter_w))
    ∧ (∀ l, conv2d_grad
        { strides := (stride_h, stride_w), padding := pad,
          dilation := (dilation_h, dilation_w), groups := groups,
          data_layout := dl, kernel_layout := kl, out_layout := ol }
        (batch, in_channel, in_h, in_w) (out_channel, ci, filter_h, filter_w)
        (grad_h, grad_w) (pt, pl, pb, pr) = .ok l →
        (filter_h ≤ padded_weight_grad_h in_h grad_h stride_h pt pb dilation_h ∧
         filter_w ≤ padded_weight_grad_w in_w grad_w stride_w pl pr dilation_w)
        ∧ ∃ bd bw, l = [.dataGrad bd, .weightGrad bw]
          ∧ bw.slice =
              (if filter_h < padded_weight_grad_h in_h grad_h stride_h pt pb dilation_h ∨
                  filter_w < padded_weight_grad_w in_w grad_w stride_w pl pr dilation_w then
                some { slice_begin := [0, 0, 0, 0],
                       slice_end := [none, none, some filter_h, some filter_w] }
              else none)) := by
  rw [conv2d_grad_supported stride_h stride_w dilation_h dilation_w groups pad dl kl ol
    batch in_channel in_h in_w out_channel ci filter_h filter_w grad_h grad_w
    pt pl pb pr hdl hkl hol]
  by_cases h1 : padded_weight_grad_h in_h grad_h stride_h pt pb dilation_h < filter_h
  · constructor
    · simp [h1]
    · intro l hl
      rw [if_pos h1] at hl
      exact absurd hl (by simp)
  · by_cases h2 : padded_weight_grad_w in_w grad_w stride_w pl pr dilation_w < filter_w
    · constructor
      · simp [h1, h2]
      · intro l hl
        rw [if_neg h1, if_pos h2] at hl
        exact absurd hl (by simp)
    · constructor
      · simp [h1, h2]
      · intro l hl
        rw [if_neg h1, if_neg h2] at hl
        injection hl with hl
        subst hl
        exact ⟨⟨not_lt.mp h1, not_lt.mp h2⟩, _, _, rfl, rfl⟩

/-- C5: conv2d_grad raises an unsupported-layout error exactly when the
data layout is not NCHW, or the kernel layout is not OIHW, or the output
layout is neither empty nor NCHW. -/
theorem conv2d_grad_layout_guard
    (stride_h stride_w dilation_h dilation_w groups : ℤ) (pad : List ℤ)
    (dl kl ol : String)
    (batch in_channel in_h in_w out_channel ci filter_h filter_w grad_h grad_w : ℤ)
    (pt pl pb pr : ℤ) :
    (conv2d_grad
        { strides := (stride_h, stride_w), padding := pad,
          dilation := (dilation_h, dilation_w), groups := groups,
          data_layout := dl, kernel_layout := kl, out_layout := ol }
        (batch, in_channel, in_h, in_w) (out_channel, ci, filter_h, filter_w)
        (grad_h, grad_w) (pt, pl, pb, pr) = .error .unsupportedDataLayout ∨
     conv2d_grad
        { strides := (stride_h, stride_w), padding := pad,
          dilation := (dilation_h, dilation_w), groups := groups,
          data_layout := dl, kernel_layout := kl, out_layout := ol }
        (batch, in_channel, in_h, in_w) (out_channel, ci, filter_h, filter_w)
        (grad_h, grad_w) (pt, pl, pb, pr) = .error .unsupportedKernelLayout ∨
     conv2d_grad
        { strides := (stride_h, stride_w), padding := pad,
          dilation := (dilation_h, dilation_w), groups := groups,
          data_layout := dl, kernel_layout := kl, out_layout := ol }
        (batch, in_channel, in_h, in_w) (out_channel, ci, filter_h, filter_w)
        (grad_h, grad_w) (pt, pl, pb, pr) = .error .unsupportedOutLayout) ↔
    ¬ (dl = "NCHW" ∧ kl = "OIHW" ∧ (ol = "" ∨ ol = "NCHW")) := by
  simp only [conv2d_grad]
  split_ifs with h1 h2 h3 h4 h5 <;> simp_all

/-- C6: every registered gradient rule returns as many gradients as its
call has arguments: 1 for the unary rules, 2 for the binary rules and
conv2d, 1 for the single-argument pooling and concatenate calls, 0 for
zeros and ones. -/
theorem gradient_rule_arity :
    (∀ x grad : ℚ, (log_grad x grad).length = registryArgCount .log)
  ∧ (∀ (sinP : ℚ → ℚ) (x grad : ℚ), (cos_grad sinP x grad).length = registryArgCount .cos)
  ∧ (∀ (cosP : ℚ → ℚ) (x grad : ℚ), (sin_grad cosP x grad).length = registryArgCount .sin)
  ∧ (∀ (expP : ℚ → ℚ) (x grad : ℚ), (exp_grad expP x grad).length = registryArgCount .exp)
  ∧ (∀ (powerP : ℚ → ℚ → ℚ) (x grad : ℚ),
      (sqrt_grad powerP x grad).length = registryArgCount .sqrt)
  ∧ (∀ orig grad : ℚ, (sigmoid_grad orig grad).length = registryArgCount .sigmoid)
  ∧ (∀ orig grad : ℚ, (tanh_grad orig grad).length = registryArgCount .tanh)
  ∧ (∀ x grad : ℚ, (relu_grad x grad).length = registryArgCount .relu)
  ∧ (∀ x y grad : ℚ, (add_grad x y grad).length = registryArgCount .add)
  ∧ (∀ x y grad : ℚ, (subtract_grad x y grad).length = registryArgCount .subtract)
  ∧ (∀ x y grad : ℚ, (multiply_grad x y grad).length = registryArgCount .multiply)
  ∧ (∀ x y orig grad : ℚ, (divide_grad x y orig grad).length = registryArgCount .divide)
  ∧ (∀ orig grad : ℚ, (zeros_grad orig grad).length = registryArgCount .zeros)
  ∧ (∀ orig grad : ℚ, (ones_grad orig grad).length = registryArgCount .ones)
  ∧ (∀ orig grad : ℚ, (zeros_like_grad orig grad).length = registryArgCount .zeros_like)
  ∧ (∀ x grad : ℚ, (ones_like_grad x grad).length = registryArgCount .ones_like)
  ∧ (∀ x y grad : ℚ,
      (collapse_sum_like_grad x y grad).length = registryArgCount .collapse_sum_like)
  ∧ (∀ x grad : ℚ, (abs_grad x grad).length = registryArgCount .abs)
  ∧ (∀ (a_min a_max : ℚ) (x grad : List ℚ),
      (clip_grad a_min a_max x grad).length = registryArgCount .clip)
  ∧ (∀ (attrs : PoolAttrs) (x grad : ℚ),
      (max_pool2d_grad attrs x grad).length = registryArgCount .max_pool2d)
  ∧ (∀ (attrs : PoolAttrs) (x grad : ℚ),
      (avg_pool2d_grad attrs x grad).length = registryArgCount .avg_pool2d)
  ∧ (∀ t grad : TExpr, (concatenate_grad t grad).length = registryArgCount .concatenate)
  ∧ (∀ (attrs : Conv2dAttrs) (dsh wsh : ℤ × ℤ × ℤ × ℤ) (ghw : ℤ × ℤ)
      (fpads : ℤ × ℤ × ℤ × ℤ) (l : List Conv2dGradItem),
      conv2d_grad attrs dsh wsh ghw fpads = .ok l →
      l.length = registryArgCount .conv2d) := by
  refine ⟨fun _ _ => rfl, fun _ _ _ => rfl, fun _ _ _ => rfl, fun _ _ _ => rfl,
    fun _ _ _ => rfl, fun _ _ => rfl, fun _ _ => rfl, fun _ _ => rfl,
    fun _ _ _ => rfl, fun _ _ _ => rfl, fun _ _ _ => rfl, fun _ _ _ _ => rfl,
    fun _ _ => rfl, fun _ _ => rfl, fun _ _ => rfl, fun _ _ => rfl,
    fun _ _ _ => rfl, fun _ _ => rfl, fun _ _ _ _ => rfl, fun _ _ _ => rfl,
    fun _ _ _ => rfl, fun _ _ => rfl, ?_⟩
  intro attrs dsh wsh ghw fpads l h
  obtain ⟨bd, bw, rfl⟩ := conv2d_grad_ok_shape attrs dsh wsh ghw fpads l h
  rfl

/-- C8: sqrt_grad returns [grad * 0.5 * power(x, -0.5)], and the element
type of its 0.5 literal is the element type of x. -/
theorem sqrt_grad_formula :
    (∀ (powerP : ℚ → ℚ → ℚ) (x grad : ℚ),
      sqrt_grad powerP x grad = [grad * (0.5 : ℚ) * powerP x (-(0.5 : ℚ))])
  ∧ (∀ dt, sqrt_const_dtype dt = dt) := by
  constructor
  · intro powerP x grad
    norm_num [sqrt_grad]
  · intro dt
    rfl

/-- C1: the tanh rule as written computes grad * ones_like(orig) - orig * orig,
i.e. grad - orig^2, not grad * (1 - orig^2): at orig = 1/2, grad = 2 the
rule returns [7/4] while grad * (1 - orig^2) = 3/2. -/
theorem tanh_grad_misses_parentheses :
    tanh_grad (1/2) 2 = [(7 : ℚ)/4] ∧ ((7 : ℚ)/4) ≠ 2 * (1 - (1/2 : ℚ)^2) := by
  constructor
  · norm_num [tanh_grad, ones_like]
  · norm_num

/-- Helper: clip_grad builds the two-sided mask with thresholds exactly
the attribute values it reads. -/
theorem clip_grad_mask_core (a b : ℚ) :
    ∀ (x grad : List ℚ), x.length = grad.length →
      clip_grad a b x grad =
        [List.zipWith (fun xi gi => if xi < a then 0 else if b < xi then 0 else gi) x grad] := by
  intro x
  induction x with
  | nil =>
    intro grad h
    simp [clip_grad, broadcast_const_like, zeros_like_t, ones_like_t, less_t, where_t, mul_t]
  | cons xi xt ih =>
    intro grad h
    cases grad with
    | nil => simp at h
    | cons gi gt =>
      have hlen : xt.length = gt.length := by simpa using h
      have tail := ih gt hlen
      simp only [clip_grad, get_int, broadcast_const_like, zeros_like_t, ones_like_t,
        less_t, where_t, mul_t, List.map_cons, List.zipWith_cons_cons, List.zip_cons_cons,
        List.cons.injEq, List.zipWith] at tail ⊢
      refine ⟨⟨?_, ?_⟩, trivial⟩
      · by_cases h1 : xi < a <;> by_cases h2 : b < xi <;> simp [h1, h2]
      · simpa using tail

/-- C7: the clip gradient is grad where a_min ≤ x ≤ a_max and 0 elsewhere
(the mask thresholds being the bounds read from the call). -/
theorem clip_grad_two_sided_mask (a_min a_max : ℚ) (x grad : List ℚ)
    (h : x.length = grad.length) :
    clip_grad a_min a_max x grad =
      [List.zipWith (fun xi gi => if a_min ≤ xi ∧ xi ≤ a_max then gi else 0) x grad] := by
  rw [clip_grad_mask_core a_min a_max x grad h]
  have hpt : ∀ xi gi : ℚ,
      (if xi < a_min then (0 : ℚ) else if a_max < xi then 0 else gi) =
        (if a_min ≤ xi ∧ xi ≤ a_max then gi else 0) := by
    intro xi gi
    rcases lt_or_le xi a_min with h1 | h1
    · simp [h1, not_le.mpr h1]
    · rcases lt_or_le a_max xi with h2 | h2
      · simp [not_lt.mpr h1, h2, not_le.mpr h2]
      · simp [not_lt.mpr h1, not_lt.mpr h2, h1, h2]
  simp only [hpt]

/-- C7 witness: for clip(x; a_min=0, a_max=1), x = [-1, 0.5, 2] and
grad = [1, 1, 1] the rule returns [0, 1, 0]. -/
theorem clip_grad_two_sided_mask_witness :
    clip_grad 0 1 [-1, 1/2, 2] [1, 1, 1] = [[0, 1, 0]] :=
  (clip_grad_two_sided_mask 0 1 [-1, 1/2, 2] [1, 1, 1] rfl).trans (by norm_num)

/-- C10 counterexample: with declared bounds a_min = 0, a_max = 3/2 and
x = [5/4], grad = [1], clip_grad does not behave as the integer-truncating
description claims (it returns [[1]], the truncating version [[0]]). -/
theorem clip_grad_not_truncating :
    clip_grad 0 (3/2) [5/4] [1] = [[1]] ∧
    clip_grad_truncating 0 (3/2) [5/4] [1] = [[0]] ∧
    clip_grad 0 (3/2) [5/4] [1] ≠ clip_grad_truncating 0 (3/2) [5/4] [1] := by
  refine ⟨?_, ?_, ?_⟩ <;>
    norm_num [clip_grad, clip_grad_truncating, get_int, int_trunc, broadcast_const_like,
      zeros_like_t, ones_like_t, less_t, where_t, mul_t]

/-- C10 (amended): clip_grad masks against the declared bound values
themselves, read from the call unchanged. -/
theorem clip_grad_declared_bounds (a_min a_max : ℚ) (x grad : List ℚ)
    (h : x.length = grad.length) :
    clip_grad a_min a_max x grad =
      [List.zipWith (fun xi gi => if xi < a_min then 0 else if a_max < xi then 0 else gi)
        x grad] :=
  clip_grad_mask_core a_min a_max x grad h

/-- C10 witness: at the non-integral bound a_max = 3/2 the mask keeps
x = 5/4 (the declared bound, not its truncation, is the threshold). -/
theorem clip_grad_declared_bounds_witness :
    clip_grad 0 (3/2) [5/4, 2] [1, 1] = [[1, 0]] :=
  (clip_grad_declared_bounds 0 (3/2) [5/4, 2] [1, 1] rfl).trans (by norm_num)

/-- C9: the quantized concatenate builder errors exactly on empty data or
a non-integer axis, and otherwise builds the concatenate call from its
arguments. -/
theorem qnn_concatenate_guard
    (data : List TExpr) (scales : List ℚ) (zps : List ℤ) (os : ℚ) (ozp : ℤ)
    (axis : PyVal) :
    ((∃ e, qnn_concatenate data scales zps os ozp axis = .error e) ↔
      (data = [] ∨ axis.isInt = false))
    ∧ (data ≠ [] → axis.isInt = true →
        qnn_concatenate data scales zps os ozp axis =
          .ok { data := data,
                input_scales := scales.map fun x => { dtype := "float64", value := x },
                input_zero_points := zps.map fun x => { dtype := "int32", value := x },
                output_scale := os, output_zero_point := ozp, axis := axis }) := by
  unfold qnn_concatenate
  constructor
  · constructor
    · rintro ⟨e, he⟩
      by_cases h1 : data.isEmpty
      · exact Or.inl (List.isEmpty_iff.mp h1)
      · rw [if_neg h1] at he
        by_cases h2 : axis.isInt
        · rw [if_neg (by simp [h2])] at he
          exact absurd he (by simp)
        · exact Or.inr (Bool.not_eq_true _ ▸ h2)
    · intro hv
      rcases hv with hv | hv
      · exact ⟨_, by rw [if_pos (List.isEmpty_iff.mpr hv)]⟩
      · by_cases h1 : data.isEmpty
        · exact ⟨_, by rw [if_pos h1]⟩
        · exact ⟨_, by rw [if_neg h1, if_pos (by simp [hv])]⟩
  · intro h1 h2
    rw [if_neg (by simp [h1]), if_neg (by simp [h2])]

/-- C2 witness: the spec's conv2d example (data 1x3x8x8, weight 4x3x3x3,
stride 1, padding 1, dilation 1, groups 1): output_padding is (0, 0). -/
theorem conv2d_grad_output_padding_witness :
    ∃ bd bw,
      ([Conv2dGradItem.dataGrad
          { strides := (1, 1), padding := [1, 1], dilation := (1, 1), groups := 1,
            output_padding := (0, 0) },
        Conv2dGradItem.weightGrad
          { conv := { tile_reps := [1, 3, 1, 1], grad_newshape := [-1, 1, 0, 0],
                      data_newshape := [1, -1, 0, 0], strides := (1, 1), padding := [1, 1],
                      dilation := (1, 1), groups := 3 },
            reshape_newshape := [1, 3, 4, 3, 3], sum_axis := 0,
            transpose_axes := [1, 0, 2, 3], slice := none }] : List Conv2dGradItem) =
        [.dataGrad bd, .weightGrad bw]
      ∧ bd.strides = (1, 1) ∧ bd.padding = [1, 1]
      ∧ bd.dilation = (1, 1) ∧ bd.groups = 1
      ∧ bd.output_padding =
          (8 - ((8 - 1) * 1 - 1 - 1 + 3), 8 - ((8 - 1) * 1 - 1 - 1 + 3)) :=
  conv2d_grad_output_padding 1 1 1 1 1 [1, 1] "NCHW" "OIHW" "" 1 3 8 8 4 3 3 3 8 8
    1 1 1 1 _ rfl

/-- C3 witness: at the same example the weight-gradient convolution tiles
by 3 = in_channel // groups, swaps strides and dilation, and uses
groups = in_channel * batch = 3. -/
theorem conv2d_grad_weight_conv_swap_witness :
    ∃ bd bw,
      ([Conv2dGradItem.dataGrad
          { strides := (1, 1), padding := [1, 1], dilation := (1, 1), groups := 1,
            output_padding := (0, 0) },
        Conv2dGradItem.weightGrad
          { conv := { tile_reps := [1, 3, 1, 1], grad_newshape := [-1, 1, 0, 0],
                      data_newshape := [1, -1, 0, 0], strides := (1, 1), padding := [1, 1],
                      dilation := (1, 1), groups := 3 },
            reshape_newshape := [1, 3, 4, 3, 3], sum_axis := 0,
            transpose_axes := [1, 0, 2, 3], slice := none }] : List Conv2dGradItem) =
        [.dataGrad bd, .weightGrad bw]
      ∧ bw.conv.tile_reps = [1, (3 : ℤ).fdiv 1, 1, 1]
      ∧ bw.conv.grad_newshape = [-1, 1, 0, 0]
      ∧ bw.conv.data_newshape = [1, -1, 0, 0]
      ∧ bw.conv.strides = (1, 1)
      ∧ bw.conv.padding = [1, 1]
      ∧ bw.conv.dilation = (1, 1)
      ∧ bw.conv.groups = 3 * 1 :=
  conv2d_grad_weight_conv_swap 1 1 1 1 1 [1, 1] "NCHW" "OIHW" "" 1 3 8 8 4 3 3 3 8 8
    1 1 1 1 _ rfl

/-- C4 witness: data 1x1x4x4, weight 1x1x1x1, stride 2, no padding: the
padded weight-gradient size is 2 > 1, the guard passes and the result is
cropped to the 1x1 kernel by a strided slice from the origin. -/
theorem conv2d_grad_padded_guard_and_crop_witness :
    (1 ≤ padded_weight_grad_h 4 2 2 0 0 1 ∧ 1 ≤ padded_weight_grad_w 4 2 2 0 0 1)
    ∧ ∃ bd bw,
      ([Conv2dGradItem.dataGrad
          { strides := (2, 2), padding := [0], dilation := (1, 1), groups := 1,
            output_padding := (1, 1) },
        Conv2dGradItem.weightGrad
          { conv := { tile_reps := [1, 1, 1, 1], grad_newshape := [-1, 1, 0, 0],
                      data_newshape := [1, -1, 0, 0], strides := (1, 1), padding := [0],
                      dilation := (2, 2), groups := 1 },
            reshape_newshape := [1, 1, 1, 2, 2], sum_axis := 0,
            transpose_axes := [1, 0, 2, 3],
            slice := some { slice_begin := [0, 0, 0, 0],
                            slice_end := [none, none, some 1, some 1] } }] :
        List Conv2dGradItem) = [.dataGrad bd, .weightGrad bw]
      ∧ bw.slice =
          (if 1 < padded_weight_grad_h 4 2 2 0 0 1 ∨ 1 < padded_weight_grad_w 4 2 2 0 0 1 then
            some { slice_begin := [0, 0, 0, 0], slice_end := [none, none, some 1, some 1] }
          else none) :=
  (conv2d_grad_padded_guard_and_crop 2 2 1 1 1 [0] "NCHW" "OIHW" "" 1 1 4 4 1 1 1 1 2 2
    0 0 0 0 rfl rfl (Or.inl rfl)).2 _ rfl

/-- C6 witness: a successful conv2d_grad call returns a gradient list of
length 2, the conv2d call's argument count. -/
theorem gradient_rule_arity_witness :
    ([Conv2dGradItem.dataGrad
        { strides := (1, 1), padding := [1, 1], dilation := (1, 1), groups := 1,
          output_padding := (0, 0) },
      Conv2dGradItem.weightGrad
        { conv := { tile_reps := [1, 3, 1, 1], grad_newshape := [-1, 1, 0, 0],
                    data_newshape := [1, -1, 0, 0], strides := (1, 1), padding := [1, 1],
                    dilation := (1, 1), groups := 3 },
          reshape_newshape := [1, 3, 4, 3, 3], sum_axis := 0,
          transpose_axes := [1, 0, 2, 3], slice := none }] :
      List Conv2dGradItem).length = registryArgCount .conv2d :=
  gradient_rule_arity.2.2.2.2.2.2.2.2.2.2.2.2.2.2.2.2.2.2.2.2.2.2
    { strides := (1, 1), padding := [1, 1], dilation := (1, 1), groups := 1,
      data_layout := "NCHW", kernel_layout := "OIHW", out_layout := "" }
    (1, 3, 8, 8) (4, 3, 3, 3) (8, 8) (1, 1, 1, 1) _ rfl
